import Mathlib

/-!
Verification development for the folktexts column-to-text excerpt:
`folktexts/col_to_text.py`, `folktexts/acs/acs_columns.py` and
`folktexts/cli/run_acs_benchmark.py`, shallowly embedded in Lean 4.

Raw column values in the source are Python ints or strings (the income
brackets use string-encoded intervals as raw values), so raw values are
embedded as a sum of the two.
-/

namespace Folktexts

/-- A raw column value: an integer code or a string (e.g. a string-encoded
income interval such as the bracket bounds used by `PINCP_brackets`). -/
inductive RawVal where
  | int (n : Int)
  | str (s : String)
deriving DecidableEq, Repr

/-- A choice of a multiple-choice question, from `folktexts.questions.Choice`
as used by `acs_columns.py`: display text, raw underlying value, and an
optional numeric value. -/
structure Choice where
  text : String
  value : RawVal
  numeric_value : Option Int
deriving DecidableEq, Repr

/-- Modelled from the spec: the Question/Choice model (`qa_interface` /
`questions` module, not part of the excerpt). A question is either a
multiple-choice question (prompt text plus an ordered sequence of choices)
or some other, non-multiple-choice question shape for which no
mapping-derivation rule exists (spec section 4.2 step 1). -/
inductive QAInterface where
  | multipleChoice (text : String) (choices : List Choice)
  | direct (text : String)

/-- The choices of a question (empty for non-multiple-choice shapes). -/
def QAInterface.choices : QAInterface → List Choice
  | .multipleChoice _ cs => cs
  | .direct _ => []

/-- Whether a question is a multiple-choice question (the
`isinstance(question, MultipleChoiceQA)` test in `ColumnToText.__init__`). -/
def QAInterface.isMultipleChoice : QAInterface → Bool
  | .multipleChoice _ _ => true
  | .direct _ => false

/-- A Python dict from raw values to strings, as an insertion-ordered
association list with unique keys maintained by `dictInsert`. -/
abbrev PyDict := List (RawVal × String)

/-- `d[k] = v` on a Python dict: overwrite in place if the key is present,
else append at the end (insertion order). -/
def dictInsert (d : PyDict) (k : RawVal) (v : String) : PyDict :=
  if d.any (fun p => p.1 == k) then
    d.map (fun p => if p.1 == k then (k, v) else p)
  else d ++ [(k, v)]

/-- `d.get(k)` on a Python dict: the entry for `k`, if present. -/
def dictGet (d : PyDict) (k : RawVal) : Option String :=
  (d.find? (fun p => p.1 == k)).map Prod.snd

/-- Modelled from the spec: `MultipleChoiceQA.get_value_to_text_map`
(not part of the excerpt) — derive from a question's choices the mapping
sending each choice's raw value to its display text. -/
def get_value_to_text_map (choices : List Choice) : PyDict :=
  choices.foldl (fun d c => dictInsert d c.value c.text) []

/-- Modelled from the spec: `MultipleChoiceQA.create_question_from_value_map`
(not part of the excerpt) — synthesize a multiple-choice question from an
explicit mapping: the choices are the mapping's (value, text) pairs in
order, and the prompt text is built from the column name and attribute
(short description); the spec fixes only that the prompt is built from
these two, not its exact wording. -/
def create_question_from_value_map (column : String) (value_map : PyDict)
    (attr_text : String) : QAInterface :=
  .multipleChoice ("What is the " ++ attr_text ++ " of this person (column " ++ column ++ ")?")
    (value_map.map (fun p => ⟨p.2, p.1, none⟩))

/-- The `value_map` argument of `ColumnToText.__init__`: an explicit
dictionary or a callable. -/
inductive VMapArg where
  | dict (d : PyDict)
  | callable (f : RawVal → String)

/-- A constructed `ColumnToText` instance (`col_to_text.py`). After a
successful `__init__` the stored `_value_map` is always a dict or a
callable, never `None`. -/
structure ColumnToText where
  name : String
  short_description : String
  value_map : VMapArg
  question : Option QAInterface
  connector_verb : String
  missing_value_fill : String

/-- `ColumnToText.__init__` (col_to_text.py lines 10-79): branch on which
of `value_map` / `question` were supplied; derive the missing one where a
rule exists, and raise `ValueError` (here: `Except.error` carrying the
message) in the two configuration-error cases. -/
def ColumnToText.init (name : String) (short_description : String)
    (value_map : Option VMapArg) (question : Option QAInterface)
    (connector_verb : String) (missing_value_fill : String) :
    Except String ColumnToText :=
  match question, value_map with
  | some q, none =>
    -- question provided, value_map not: infer value_map from question
    match q with
    | .multipleChoice t cs =>
      .ok ⟨name, short_description, .dict (get_value_to_text_map cs),
        some (.multipleChoice t cs), connector_verb, missing_value_fill⟩
    | .direct _ =>
      .error ("Cannot infer `ColumnToText` value map from the provided question; "
        ++ "Must explicitly provide a `value_map` for column " ++ name ++ ".")
  | none, some vm =>
    -- value_map provided, question not: infer question from value map (if possible)
    match vm with
    | .dict d =>
      .ok ⟨name, short_description, .dict d,
        some (create_question_from_value_map name d short_description),
        connector_verb, missing_value_fill⟩
    | .callable f =>
      .ok ⟨name, short_description, .callable f, none, connector_verb, missing_value_fill⟩
  | some q, some vm =>
    -- both provided: warning only (not modelled), accept as-is
    .ok ⟨name, short_description, vm, some q, connector_verb, missing_value_fill⟩
  | none, none =>
    .error ("Must provide either a `value_map` or a `question` for column "
      ++ "'" ++ name ++ "' but neither was provided.")

/-- `ColumnToText.__getitem__` via the `value_map` property (col_to_text.py
lines 95-113): a callable is invoked verbatim; a dict is looked up with
`dict.get(value, missing_value_fill)` (plus a non-fatal logged error on a
miss, not modelled). -/
def ColumnToText.lookup (c : ColumnToText) (value : RawVal) : String :=
  match c.value_map with
  | .callable f => f value
  | .dict d => (dictGet d value).getD c.missing_value_fill

/-- `ColumnToText.get_text` (col_to_text.py line 115-116): the f-string
template around the lookup result. -/
def ColumnToText.get_text (c : ColumnToText) (value : RawVal) : String :=
  "The " ++ c.short_description ++ " " ++ c.connector_verb ++ " "
    ++ c.lookup value ++ "."

/-- Whether an `Except` value is an error. -/
def exceptIsError {ε α : Type} : Except ε α → Bool
  | .error _ => true
  | .ok _ => false

/-! ## Code Table Loader (`parse_pums_code`, acs_columns.py lines 87-118)

The loader parses a code file with the regex
`(?P<code>\d+)\s+[.](?P<description>.+)$` applied by `re.match` to each
line, caches the parsed table per file path in a process-wide mutable
default argument, and looks the requested code up, returning "N/A" on a
miss. The filesystem is an explicit map from path to the file's lines
(without trailing newlines: `$` matches before a trailing newline and `.`
does not match it, so the regex never captures it); the cache is threaded
explicitly, and the number of file reads is reported. -/

/-- A parsed code table: Python dict from integer code to description. -/
abbrev CodeTable := List (Nat × String)

/-- Insert into a code table with Python dict semantics. -/
def codeInsert (d : CodeTable) (k : Nat) (v : String) : CodeTable :=
  if d.any (fun p => p.1 == k) then
    d.map (fun p => if p.1 == k then (k, v) else p)
  else d ++ [(k, v)]

/-- Look a code up in a code table (`k in d` / `d[k]`). -/
def codeGet (d : CodeTable) (k : Nat) : Option String :=
  (d.find? (fun p => p.1 == k)).map Prod.snd

/-- Python's `\s` on ASCII input: space, tab, newline, carriage return,
vertical tab, form feed. -/
def isPyWhitespace (c : Char) : Bool :=
  c = ' ' || c = '\t' || c = '\n' || c = '\r' || c = '\x0b' || c = '\x0c'

/-- The integer value of a digit string (`int(code)`). -/
def digitsToNat (ds : List Char) : Nat :=
  ds.foldl (fun n c => n * 10 + (c.toNat - Char.toNat '0')) 0

/-- `re.match` of `(?P<code>\d+)\s+[.](?P<description>.+)$` against one
line: one-or-more leading digits, one-or-more whitespace characters, a
literal dot, then a non-empty remainder (the description, leading
whitespace after the dot included). Neither `\d+` nor `\s+` can backtrack
usefully here (a digit is not whitespace and whitespace is not a dot), so
maximal munch is exact. -/
def parseLine (line : String) : Option (Nat × String) :=
  let cs := line.toList
  let digits := cs.takeWhile Char.isDigit
  let rest1 := cs.dropWhile Char.isDigit
  if digits.isEmpty then none
  else
    let ws := rest1.takeWhile isPyWhitespace
    let rest2 := rest1.dropWhile isPyWhitespace
    if ws.isEmpty then none
    else
      match rest2 with
      | '.' :: desc => if desc.isEmpty then none else some (digitsToNat digits, String.mk desc)
      | _ => none

/-- Parse a whole code file: lines that match become entries (description
post-processed when a transform is supplied); lines that do not match are
skipped with a logged error (not modelled). -/
def parseFile (lines : List String) (postprocess : Option (String → String)) : CodeTable :=
  lines.foldl
    (fun tbl line =>
      match parseLine line with
      | none => tbl
      | some (code, description) =>
        codeInsert tbl code
          (match postprocess with
           | some f => f description
           | none => description))
    []

/-- The process-wide cache: file path to parsed table, in insertion order. -/
abbrev Cache := List (String × CodeTable)

/-- The cache entry for a path, if populated (`file in cache` / `cache[file]`). -/
def cacheFind (c : Cache) (file : String) : Option CodeTable :=
  (c.find? (fun p => p.1 == file)).map Prod.snd

/-- The outcome of one `parse_pums_code` call: the returned string, the
cache afterwards, and how many times the file was read from disk. -/
structure PumsResult where
  result : String
  cache : Cache
  reads : Nat
deriving Repr

/-- `parse_pums_code(value, file, postprocess)` with the filesystem and the
cache made explicit: populate the cache from the file on first use of the
path, then answer from the cached table, returning "N/A" (after a logged
warning, not modelled) when the code is absent. -/
def parse_pums_code (value : Nat) (file : String)
    (postprocess : Option (String → String)) (fs : String → List String)
    (cache : Cache) : PumsResult :=
  match cacheFind cache file with
  | some tbl => ⟨(codeGet tbl value).getD "N/A", cache, 0⟩
  | none =>
    let tbl := parseFile (fs file) postprocess
    ⟨(codeGet tbl value).getD "N/A", cache ++ [(file, tbl)], 1⟩

/-! ## Column Registry excerpts (acs_columns.py)

The registry instances cited by the claims, each a call to the
`ColumnToText` constructor with the literal arguments from the source.
`connector_verb` and `missing_value_fill` default to "is" and "N/A" in the
source and are passed explicitly here. -/

/-- The `MAR` value map (acs_columns.py lines 77-83). -/
def marDict : PyDict :=
  [(.int 1, "married"), (.int 2, "widowed"), (.int 3, "divorced"),
   (.int 4, "separated"), (.int 5, "never married")]

/-- The `RAC1P` value map (acs_columns.py lines 192-203). -/
def racDict : PyDict :=
  [(.int 1, "White"),
   (.int 2, "Black or African American"),
   (.int 3, "American Indian"),
   (.int 4, "Alaska Native"),
   (.int 5, "American Indian and Alaska Native tribes specified, or American Indian or Alaska Native, not specified and no other races"),
   (.int 6, "Asian"),
   (.int 7, "Native Hawaiian and Other Pacific Islander"),
   (.int 8, "Some other race alone (non-White)"),
   (.int 9, "Two or more races")]

/-- The `PINCP_binary` question (acs_columns.py lines 216-222). -/
def pincpBinaryQuestion : QAInterface :=
  .multipleChoice "What is this person's estimated yearly income?"
    [⟨"Below $50,000", .int 0, none⟩, ⟨"Above $50,000", .int 1, none⟩]

/-- Extract the constructed instance from a successful `__init__` (a dummy
instance for the error case; every use below is on a constructor call that
is proved, or directly seen, to succeed). -/
def getOk (e : Except String ColumnToText) : ColumnToText :=
  match e with
  | .ok c => c
  | .error _ => ⟨"", "", .dict [], none, "is", "N/A"⟩

/-- `acs_marital_status` (acs_columns.py lines 74-84). -/
def acs_marital_status : ColumnToText :=
  getOk (ColumnToText.init "MAR" "marital status" (some (.dict marDict)) none "is" "N/A")

/-- `acs_race` (acs_columns.py lines 189-204). -/
def acs_race : ColumnToText :=
  getOk (ColumnToText.init "RAC1P" "race" (some (.dict racDict)) none "is" "N/A")

/-- The first `acs_income` assignment (acs_columns.py lines 206-210): the
`PINCP` mapper is constructed with neither a `value_map` nor a `question`,
only a `missing_value_fill`. -/
def acs_income_pincp_init : Except String ColumnToText :=
  ColumnToText.init "PINCP" "yearly income" none none "is" "N/A (less than 15 years old)"

/-- The second `acs_income` assignment (acs_columns.py lines 212-223): the
`PINCP_binary` mapper, built from its inline question. -/
def acs_income_binary : ColumnToText :=
  getOk (ColumnToText.init "PINCP_binary" "yearly income" none
    (some pincpBinaryQuestion) "is" "N/A (less than 15 years old)")

/-! ## CLI entry point (run_acs_benchmark.py)

The argument-parsing and configuration-building slice of the CLI that the
claims are about: `argparse` is modelled on space-separated argv tokens
(value options take the next token; `nargs="*"` options take the following
tokens up to the next `--`-prefixed token; boolean flags by presence), and
`BenchmarkConfig(...)` keyword evaluation is modelled with Python errors as
`Except.error`. -/

/-- Whether a boolean flag is present in argv. -/
def flagPresent (argv : List String) (flag : String) : Bool :=
  argv.contains flag

/-- The tokens an `nargs="*"` option consumes: everything up to the next
option token. -/
def takeOptArgs : List String → List String
  | [] => []
  | t :: ts => if t.startsWith "--" then [] else t :: takeOptArgs ts

/-- The parsed value of an `nargs="*"` option: `none` when the option is
absent from argv (argparse default `None`), otherwise the list of consumed
tokens (possibly empty). -/
def findStarOption (argv : List String) (opt : String) : Option (List String) :=
  match argv with
  | [] => none
  | t :: ts => if t = opt then some (takeOptArgs ts) else findStarOption ts opt

/-- The parsed value of a single-value option: the token after the option,
when present. -/
def findValueOption (argv : List String) (opt : String) : Option String :=
  match argv with
  | [] => none
  | [_] => none
  | a :: b :: ts => if a = opt then some b else findValueOption (b :: ts) opt

/-- `args.dont_correct_order_bias` (run_acs_benchmark.py lines 44-49):
declared with `action="store_false"` and `default=True`, so it is `True`
when the flag is absent and `False` when `--dont-correct-order-bias` is
passed. -/
def dontCorrectOrderBiasArg (argv : List String) : Bool :=
  !(flagPresent argv "--dont-correct-order-bias")

/-- `feature_subset=tuple(args.use_feature_subset) or None`
(run_acs_benchmark.py line 142): `tuple(None)` raises `TypeError`; an
empty tuple is falsy and becomes `None`. -/
def featureSubsetField (use_feature_subset : Option (List String)) :
    Except String (Option (List String)) :=
  match use_feature_subset with
  | none => .error "TypeError: argument of type NoneType is not iterable"
  | some l => .ok (if l.isEmpty then none else some l)

/-- `population_filter_dict` (run_acs_benchmark.py lines 120-126): `None`
when the option is absent or its token list is falsy (empty); otherwise
each token split at "=" into a key/value pair (`a, b = s.split("=")`
raises `ValueError` unless the split has exactly two parts). -/
def populationFilterField (use_population_filter : Option (List String)) :
    Except String (Option (List (String × String))) :=
  match use_population_filter with
  | none => .ok none
  | some [] => .ok none
  | some toks =>
    (toks.mapM (fun (s : String) =>
        match s.splitOn "=" with
        | [k, v] => Except.ok (k, v)
        | parts => Except.error ("ValueError: expected 2 values to unpack, got "
            ++ toString parts.length))).map
      (fun l => some l)

/-- The fields of the `BenchmarkConfig` the CLI builds
(run_acs_benchmark.py lines 134-145). -/
structure BenchmarkConfig where
  few_shot : Option Int
  chat_prompt : Bool
  direct_risk_prompting : Bool
  reuse_few_shot_examples : Bool
  batch_size : Int
  context_size : Int
  correct_order_bias : Bool
  feature_subset : Option (List String)
  population_filter : Option (List (String × String))
  seed : Int
deriving Repr, DecidableEq

/-- An optional integer option with a default (`--batch-size`,
`--context-size`, `--seed`): absent means the default; a present value
that does not parse as an integer is an argparse error. -/
def intOptionWithDefault (argv : List String) (opt : String) (dflt : Int) :
    Except String Int :=
  match findValueOption argv opt with
  | none => .ok dflt
  | some s =>
    match s.toInt? with
    | some n => .ok n
    | none => .error ("argparse: invalid int value: " ++ s)

/-- An optional integer option without a default (`--few-shot`,
`--fit-threshold`): absent means `None`. -/
def intOptionOptional (argv : List String) (opt : String) :
    Except String (Option Int) :=
  match findValueOption argv opt with
  | none => .ok none
  | some s =>
    match s.toInt? with
    | some n => .ok (some n)
    | none => .error ("argparse: invalid int value: " ++ s)

/-- A required string option (`--model`, `--task-name`, `--results-dir`,
`--data-dir`): absent is an argparse error. -/
def requiredStrOption (argv : List String) (opt : String) : Except String String :=
  match findValueOption argv opt with
  | none => .error ("argparse: the following arguments are required: " ++ opt)
  | some s => .ok s

/-- The CLI slice from argv to the `BenchmarkConfig` the script builds
(run_acs_benchmark.py lines 103-145); results-directory creation and model
loading are external effects between argument parsing and config
construction and are not modelled. -/
def runCLIConfig (argv : List String) : Except String BenchmarkConfig := do
  let _ ← requiredStrOption argv "--model"
  let _ ← requiredStrOption argv "--task-name"
  let _ ← requiredStrOption argv "--results-dir"
  let _ ← requiredStrOption argv "--data-dir"
  let few_shot ← intOptionOptional argv "--few-shot"
  let batch_size ← intOptionWithDefault argv "--batch-size" 30
  let context_size ← intOptionWithDefault argv "--context-size" 500
  let seed ← intOptionWithDefault argv "--seed" 42
  let population_filter ← populationFilterField (findStarOption argv "--use-population-filter")
  let feature_subset ← featureSubsetField (findStarOption argv "--use-feature-subset")
  .ok
    ⟨few_shot,
     flagPresent argv "--chat-prompt",
     flagPresent argv "--direct-risk-prompting",
     flagPresent argv "--reuse-few-shot-examples",
     batch_size,
     context_size,
     !(dontCorrectOrderBiasArg argv),
     feature_subset,
     population_filter,
     seed⟩

/-! ## Concrete inputs used by the theorems -/

/-- A filesystem with one code file holding the single line `6 . Teacher`. -/
def teacherFS : String → List String := fun _ => ["6 . Teacher"]

/-- A CLI invocation with the four required options and a feature subset,
and without `--dont-correct-order-bias`. -/
def argvBase : List String :=
  ["--model", "m", "--task-name", "ACSIncome", "--results-dir", "res",
   "--data-dir", "data", "--use-feature-subset", "AGEP"]

/-- A CLI invocation with only the four required options. -/
def argvNoFeatureSubset : List String :=
  ["--model", "m", "--task-name", "ACSIncome", "--results-dir", "res",
   "--data-dir", "data"]

/-- The (raw value, display text) pairs of a choice list. -/
def choicePairs (cs : List Choice) : List (RawVal × String) :=
  cs.map (fun c => (c.value, c.text))

/-! ## Supporting lemmas -/

/-- Inserting a fresh key into a Python dict appends the pair. -/
theorem dictInsert_of_fresh (d : PyDict) (k : RawVal) (v : String)
    (h : ∀ p ∈ d, p.1 ≠ k) : dictInsert d k v = d ++ [(k, v)] := by
  have hany : d.any (fun p => p.1 == k) = false := by
    rw [List.any_eq_false]
    intro p hp
    simpa using h p hp
  simp [dictInsert, hany]

/-- Deriving a value map from choices with pairwise-distinct raw values
keeps every (value, text) pair in order, relative to any accumulator its
keys are disjoint from. -/
theorem get_value_to_text_map_go (cs : List Choice) (d : PyDict)
    (hnd : (cs.map Choice.value).Nodup)
    (hdisj : ∀ c ∈ cs, ∀ p ∈ d, p.1 ≠ c.value) :
    cs.foldl (fun d c => dictInsert d c.value c.text) d = d ++ choicePairs cs := by
  induction cs generalizing d with
  | nil => simp [choicePairs]
  | cons c cs ih =>
    have hins : dictInsert d c.value c.text = d ++ [(c.value, c.text)] :=
      dictInsert_of_fresh d c.value c.text
        (fun p hp => hdisj c (List.mem_cons_self c cs) p hp)
    have hhead : c.value ∉ cs.map Choice.value := by
      have := hnd
      simp only [List.map_cons, List.nodup_cons] at this
      exact this.1
    have hnd2 : (cs.map Choice.value).Nodup := by
      have := hnd
      simp only [List.map_cons, List.nodup_cons] at this
      exact this.2
    have hdisj2 : ∀ c2 ∈ cs, ∀ p ∈ d ++ [(c.value, c.text)], p.1 ≠ c2.value := by
      intro c2 hc2 p hp
      rcases List.mem_append.mp hp with hpd | hpc
      · exact hdisj c2 (List.mem_cons_of_mem c hc2) p hpd
      · have hpc2 : p = (c.value, c.text) := by simpa using hpc
        subst hpc2
        intro heq
        have heq2 : c.value = c2.value := heq
        exact hhead (heq2 ▸ List.mem_map_of_mem Choice.value hc2)
    calc (c :: cs).foldl (fun d c => dictInsert d c.value c.text) d
        = cs.foldl (fun d c => dictInsert d c.value c.text)
            (dictInsert d c.value c.text) := rfl
      _ = (d ++ [(c.value, c.text)]) ++ choicePairs cs := by
            rw [hins, ih (d ++ [(c.value, c.text)]) hnd2 hdisj2]
      _ = d ++ choicePairs (c :: cs) := by simp [choicePairs]

/-- On choices with pairwise-distinct raw values, the derived value map is
exactly the list of (value, text) pairs. -/
theorem get_value_to_text_map_eq (cs : List Choice)
    (hnd : (cs.map Choice.value).Nodup) :
    get_value_to_text_map cs = choicePairs cs := by
  simpa using get_value_to_text_map_go cs [] hnd (by simp)

/-- A freshly appended cache entry is found. -/
theorem cacheFind_append_self (c : Cache) (file : String) (t : CodeTable)
    (h : cacheFind c file = none) : cacheFind (c ++ [(file, t)]) file = some t := by
  induction c with
  | nil => simp [cacheFind]
  | cons p c ih =>
    by_cases hp : p.1 == file
    · exfalso
      simp [cacheFind, List.find?, hp] at h
    · have h2 : cacheFind c file = none := by
        simpa [cacheFind, List.find?, hp] using h
      simpa [cacheFind, List.find?, hp] using ih h2

/-- An existing cache entry survives any append. -/
theorem cacheFind_append_of_some (c : Cache) (l : Cache) (file : String)
    (t : CodeTable) (h : cacheFind c file = some t) :
    cacheFind (c ++ l) file = some t := by
  induction c with
  | nil => simp [cacheFind] at h
  | cons p c ih =>
    by_cases hp : p.1 == file
    · simp_all [cacheFind, List.find?, hp]
    · have h2 : cacheFind c file = some t := by
        simpa [cacheFind, List.find?, hp] using h
      simpa [cacheFind, List.find?, hp] using ih h2

/-! ## Claim theorems -/

/-- Claim C1: for every `ColumnToText` mapper backed by an explicit
dictionary, `__getitem__` returns the dictionary's entry for every key in
that dictionary, and the configured missing-value fallback for every value
not in it. -/
theorem claim_C1_dict_lookup (c : ColumnToText) (d : PyDict)
    (hd : c.value_map = .dict d) (v : RawVal) :
    (∀ t, dictGet d v = some t → c.lookup v = t) ∧
    (dictGet d v = none → c.lookup v = c.missing_value_fill) := by
  constructor
  · intro t ht
    simp [ColumnToText.lookup, hd, ht]
  · intro hn
    simp [ColumnToText.lookup, hd, hn]

/-- Witness for C1 at the registry's `MAR` mapper: key 1 maps to
"married"; the absent key 99 falls back to "N/A". -/
theorem claim_C1_dict_lookup_witness :
    acs_marital_status.value_map = VMapArg.dict marDict ∧
    dictGet marDict (.int 1) = some "married" ∧
    acs_marital_status.lookup (.int 1) = "married" ∧
    dictGet marDict (.int 99) = none ∧
    acs_marital_status.lookup (.int 99) = "N/A" :=
  ⟨rfl, rfl,
   (claim_C1_dict_lookup acs_marital_status marDict rfl (.int 1)).1 "married" rfl,
   rfl,
   (claim_C1_dict_lookup acs_marital_status marDict rfl (.int 99)).2 rfl⟩

/-- Claim C2: `ColumnToText` construction fails exactly when neither a
value map nor a question is supplied, or when a question is supplied
without a value map and is not a multiple-choice question; every other
combination of inputs yields an instance. -/
theorem claim_C2_init_error_iff (name sdesc : String) (vm : Option VMapArg)
    (q : Option QAInterface) (cv fill : String) :
    exceptIsError (ColumnToText.init name sdesc vm q cv fill) = true ↔
      (vm = none ∧ q = none) ∨
      (vm = none ∧ ∃ qq, q = some qq ∧ qq.isMultipleChoice = false) := by
  cases q with
  | none =>
    cases vm with
    | none => simp [ColumnToText.init, exceptIsError]
    | some v => cases v <;> simp [ColumnToText.init, exceptIsError]
  | some qq =>
    cases vm with
    | none =>
      cases qq <;>
        simp [ColumnToText.init, exceptIsError, QAInterface.isMultipleChoice]
    | some v => simp [ColumnToText.init, exceptIsError]

/-- Claim C3, counterexample: with no postprocess transform, a file whose
single line is `6 . Teacher` yields `" Teacher"` for code 6 — the regex
description group captures the space following the dot — not the claimed
`"Teacher"`. -/
theorem claim_C3_counterexample :
    (parse_pums_code 6 "OCCP-codes-acs.txt" none teacherFS []).result = " Teacher" ∧
    (parse_pums_code 6 "OCCP-codes-acs.txt" none teacherFS []).result ≠ "Teacher" := by
  exact ⟨rfl, by decide⟩

/-- Claim C3 as amended: with no postprocess transform, the loader returns
`" Teacher"` (the remainder after the literal dot, leading whitespace
included) for code 6, and the literal `"N/A"` for every other code. -/
theorem claim_C3_amended (v : Nat) :
    (parse_pums_code 6 "OCCP-codes-acs.txt" none teacherFS []).result = " Teacher" ∧
    (v ≠ 6 → (parse_pums_code v "OCCP-codes-acs.txt" none teacherFS []).result = "N/A") := by
  constructor
  · rfl
  · intro hv
    have h6 : ((6 : Nat) == v) = false := by
      simpa using fun h => hv h.symm
    show (codeGet [(6, " Teacher")] v).getD "N/A" = "N/A"
    simp [codeGet, List.find?, h6]

/-- Witness for C3 (amended) at the absent code 9999. -/
theorem claim_C3_amended_witness :
    (9999 : Nat) ≠ 6 ∧
    (parse_pums_code 9999 "OCCP-codes-acs.txt" none teacherFS []).result = "N/A" :=
  ⟨by decide, (claim_C3_amended 9999).2 (by decide)⟩

/-- Claim C4: with the file not yet cached, the first call reads the file
once and populates the cache with the parsed table; a second call for the
same path reads nothing, leaves the cache unchanged, and answers from the
identical table; and no later call for any path ever modifies the entry. -/
theorem claim_C4_cache_idempotent (v1 v2 : Nat) (file : String)
    (pp : Option (String → String)) (fs : String → List String) (c0 : Cache)
    (h : cacheFind c0 file = none) :
    (parse_pums_code v1 file pp fs c0).reads = 1 ∧
    (parse_pums_code v1 file pp fs c0).result
      = (codeGet (parseFile (fs file) pp) v1).getD "N/A" ∧
    cacheFind (parse_pums_code v1 file pp fs c0).cache file
      = some (parseFile (fs file) pp) ∧
    (parse_pums_code v2 file pp fs (parse_pums_code v1 file pp fs c0).cache).reads = 0 ∧
    (parse_pums_code v2 file pp fs (parse_pums_code v1 file pp fs c0).cache).cache
      = (parse_pums_code v1 file pp fs c0).cache ∧
    (parse_pums_code v2 file pp fs (parse_pums_code v1 file pp fs c0).cache).result
      = (codeGet (parseFile (fs file) pp) v2).getD "N/A" ∧
    (∀ v f pp2, cacheFind
        (parse_pums_code v f pp2 fs (parse_pums_code v1 file pp fs c0).cache).cache file
      = some (parseFile (fs file) pp)) := by
  have h1 : parse_pums_code v1 file pp fs c0
      = ⟨(codeGet (parseFile (fs file) pp) v1).getD "N/A",
         c0 ++ [(file, parseFile (fs file) pp)], 1⟩ := by
    simp [parse_pums_code, h]
  rw [h1]
  have hfind : cacheFind (c0 ++ [(file, parseFile (fs file) pp)]) file
      = some (parseFile (fs file) pp) :=
    cacheFind_append_self c0 file (parseFile (fs file) pp) h
  refine ⟨rfl, rfl, hfind, ?_, ?_, ?_, ?_⟩
  · simp [parse_pums_code, hfind]
  · simp [parse_pums_code, hfind]
  · simp [parse_pums_code, hfind]
  · intro v f pp2
    cases hf : cacheFind (c0 ++ [(file, parseFile (fs file) pp)]) f with
    | some t => simpa [parse_pums_code, hf] using hfind
    | none =>
      simp only [parse_pums_code, hf]
      exact cacheFind_append_of_some _ _ file (parseFile (fs file) pp) hfind

/-- Witness for C4 on the concrete single-line file: the first call reads
once, the second reads nothing and leaves the cache unchanged. -/
theorem claim_C4_cache_idempotent_witness :
    cacheFind ([] : Cache) "f" = none ∧
    (parse_pums_code 6 "f" none teacherFS []).reads = 1 ∧
    (parse_pums_code 6 "f" none teacherFS
      (parse_pums_code 6 "f" none teacherFS []).cache).reads = 0 ∧
    (parse_pums_code 6 "f" none teacherFS
      (parse_pums_code 6 "f" none teacherFS []).cache).cache
      = (parse_pums_code 6 "f" none teacherFS []).cache :=
  ⟨rfl,
   (claim_C4_cache_idempotent 6 6 "f" none teacherFS [] rfl).1,
   (claim_C4_cache_idempotent 6 6 "f" none teacherFS [] rfl).2.2.2.1,
   (claim_C4_cache_idempotent 6 6 "f" none teacherFS [] rfl).2.2.2.2.1⟩

/-- Claim C5 (code bug): with the four required options supplied and
`--dont-correct-order-bias` absent, the configuration the CLI builds has
`correct_order_bias = false`; passing the flag yields `true` — the
inverse of the claimed (and help-text) behavior, because the argument is
declared with `action="store_false"` and `default=True` and is then
negated at config construction. -/
theorem claim_C5_order_bias_inverted :
    (runCLIConfig argvBase).map BenchmarkConfig.correct_order_bias
      = Except.ok false ∧
    (runCLIConfig (argvBase ++ ["--dont-correct-order-bias"])).map
      BenchmarkConfig.correct_order_bias = Except.ok true :=
  ⟨rfl, rfl⟩

/-- Claim C6 (code bug): the registry's first `acs_income` assignment
builds the `PINCP` mapper with neither a `value_map` nor a `question`, so
its construction raises the configuration error the claim calls
unreachable. -/
theorem claim_C6_pincp_misconfigured :
    acs_income_pincp_init = Except.error
      ("Must provide either a `value_map` or a `question` for column "
        ++ "'PINCP' but neither was provided.") :=
  rfl

/-- Claim C7 (code bug): with `--use-feature-subset` omitted,
`args.use_feature_subset` is `None` and `tuple(None)` in the
`BenchmarkConfig` call raises `TypeError`, so no configuration is built. -/
theorem claim_C7_feature_subset_crash :
    runCLIConfig argvNoFeatureSubset
      = Except.error "TypeError: argument of type NoneType is not iterable" :=
  rfl

/-- Claim C8: `get_text` renders exactly
`"The {short_description} {connector_verb} {value_text}."` around the
lookup result, with no other formatting. -/
theorem claim_C8_get_text_template (c : ColumnToText) (v : RawVal) :
    c.get_text v = "The " ++ c.short_description ++ " " ++ c.connector_verb
      ++ " " ++ c.lookup v ++ "." :=
  rfl

/-- Claim C9: the registry's `RAC1P` mapper renders 6 and 1, and the
`PINCP_binary` mapper renders 0 and 1, to the four exact sentences. -/
theorem claim_C9_registry_render :
    acs_race.get_text (.int 6) = "The race is Asian." ∧
    acs_race.get_text (.int 1) = "The race is White." ∧
    acs_income_binary.get_text (.int 0) = "The yearly income is Below $50,000." ∧
    acs_income_binary.get_text (.int 1) = "The yearly income is Above $50,000." :=
  ⟨rfl, rfl, rfl, rfl⟩

/-- Claim C10: for a multiple-choice question whose choices carry
pairwise-distinct raw values, deriving the value map from the choices and
synthesizing a question back from that map reproduces the same
(raw value, display text) pairs. -/
theorem claim_C10_roundtrip (column attrDesc : String) (cs : List Choice)
    (h : (cs.map Choice.value).Nodup) :
    choicePairs ((create_question_from_value_map column
        (get_value_to_text_map cs) attrDesc).choices) = choicePairs cs := by
  rw [get_value_to_text_map_eq cs h]
  simp [create_question_from_value_map, QAInterface.choices, choicePairs,
    List.map_map, Function.comp]

/-- Witness for C10 at the `PINCP_binary` question's choices. -/
theorem claim_C10_roundtrip_witness :
    ((pincpBinaryQuestion.choices.map Choice.value).Nodup) ∧
    choicePairs ((create_question_from_value_map "PINCP_binary"
        (get_value_to_text_map pincpBinaryQuestion.choices) "yearly income").choices)
      = choicePairs pincpBinaryQuestion.choices :=
  ⟨by decide,
   claim_C10_roundtrip "PINCP_binary" "yearly income"
     pincpBinaryQuestion.choices (by decide)⟩

end Folktexts
